import Mathlib

/-!
Shallow embedding of a small in-process publish/subscribe broker
(`mediator_test.py`) and a standalone observable-value layer (`value.py`).

Modelling conventions:
* Python's insertion-ordered `dict` becomes an association list; `setdefault`
  followed by in-place `append` becomes an in-place map update that creates a
  new entry at the end when the key is absent.
* A publisher (`lambda topic: ...`) is a function `String → V` applied to the
  name of the exact topic; a subscriber callback is identified by a value of
  an abstract type `S`, and a notification pass returns the list of
  invocations `(subscriber, topicName)` in the order the code performs them.
* A compiled regular expression becomes `RegularExpression Char`, with
  `re.fullmatch` modelled by `rmatch` on the whole character list.
* Administrative observers may raise: their callbacks return `Except E Unit`
  and the broadcast loop is modelled separately (`notify_observers`),
  returning the observers actually invoked together with the outcome.
-/

/-- Structural boolean equality of regular expressions (models equality of the
compiled pattern objects used as `_MultiTopic` identity). -/
def rexBeq : RegularExpression Char → RegularExpression Char → Bool
| RegularExpression.zero, RegularExpression.zero => true
| RegularExpression.epsilon, RegularExpression.epsilon => true
| RegularExpression.char a, RegularExpression.char b => a == b
| RegularExpression.plus a b, RegularExpression.plus c d => rexBeq a c && rexBeq b d
| RegularExpression.comp a b, RegularExpression.comp c d => rexBeq a c && rexBeq b d
| RegularExpression.star a, RegularExpression.star b => rexBeq a b
| _, _ => false

/-- A topic key: `_SingleTopic` (exact name) or `_MultiTopic` (name pattern). -/
inductive Topic where
| single (name : String)
| multi (pat : RegularExpression Char)

/-- Equality of topic keys, mirroring the Python classes' `__eq__`:
singles compare by name, multis by pattern. -/
def Topic.beq : Topic → Topic → Bool
| Topic.single a, Topic.single b => a == b
| Topic.multi p, Topic.multi q => rexBeq p q
| _, _ => false

/-- Association-list lookup with an explicit boolean equality. -/
def lookupBy (eq : α → α → Bool) (k : α) : List (α × β) → Option β
| [] => none
| (a, b) :: rest => if eq a k then some b else lookupBy eq k rest

/-- Python `setdefault(k, []).append(v)`: extend the list stored at `k`, creating the
entry at the end of the (insertion-ordered) map when absent. -/
def appendEntry (eq : α → α → Bool) (k : α) (v : γ) : List (α × List γ) → List (α × List γ)
| [] => [(k, [v])]
| (a, l) :: rest => if eq a k then (a, l ++ [v]) :: rest else (a, l) :: appendEntry eq k v rest

/-- Registry state of `Mediator`: publishers keyed by exact topic name,
subscribers keyed by topic key (exact or pattern), both insertion-ordered. -/
structure Mediator (V S : Type) where
  publishersByTopic : List (String × List (String → V))
  subscribersByTopic : List (Topic × List S)

/-- Python `Mediator._get_publishers_for_topic(topic, create_if_absent)`: with the
flag set it is `dict.setdefault(topic, [])` (may create an empty entry);
without it it is `dict.get(topic, [])` (never mutates). The second component
is the registry after the call. -/
def Mediator.get_publishers_for_topic (m : Mediator V S) (name : String)
    (createIfAbsent : Bool) : List (String → V) × Mediator V S :=
  if createIfAbsent then
    match lookupBy (fun a b => a == b) name m.publishersByTopic with
    | some ps => (ps, m)
    | none => ([], ⟨m.publishersByTopic ++ [(name, [])], m.subscribersByTopic⟩)
  else
    ((lookupBy (fun a b => a == b) name m.publishersByTopic).getD [], m)

/-- Python `Mediator._get_all_publisher_topics()`: the dict's keys in insertion order. -/
def Mediator.get_all_publisher_topics (m : Mediator V S) : List String :=
  m.publishersByTopic.map Prod.fst

/-- Python `_Topic._get_published_data_for_topic`: apply each registered publisher of
the exact topic to the topic, in registration order. -/
def Mediator.get_published_data_for_topic (m : Mediator V S) (name : String) :
    List V × Mediator V S :=
  let r := m.get_publishers_for_topic name false
  (r.1.map (fun p => p name), r.2)

/-- Loop of `_MultiTopic.get_published_data`: walk the published topic names,
keep those the pattern fully matches, concatenating their publishers' data. -/
def multiDataLoop (p : RegularExpression Char) :
    List String → Mediator V S → List V × Mediator V S
| [], m => ([], m)
| n :: rest, m =>
  if p.rmatch n.toList then
    let r := m.get_published_data_for_topic n
    let r2 := multiDataLoop p rest r.2
    (r.1 ++ r2.1, r2.2)
  else multiDataLoop p rest m

/-- Python `get_published_data` of a single topic key (`_SingleTopic` or
`_MultiTopic`). -/
def Topic.get_published_data (t : Topic) (m : Mediator V S) : List V × Mediator V S :=
  match t with
  | Topic.single n => m.get_published_data_for_topic n
  | Topic.multi p => multiDataLoop p m.get_all_publisher_topics m

/-- Python `Mediator.get_published_data(*topics)`: concatenation over the keys in
call order. -/
def Mediator.get_published_data : Mediator V S → List Topic → List V × Mediator V S
| m, [] => ([], m)
| m, t :: ts =>
  let r := t.get_published_data m
  let r2 := Mediator.get_published_data r.2 ts
  (r.1 ++ r2.1, r2.2)

/-- Python `matches(self, topic)`: name equality for `_SingleTopic`, full regex match
(`re.fullmatch`) for `_MultiTopic`. The argument is the exact topic's name. -/
def Topic.matches : Topic → String → Bool
| Topic.single n, t => n == t
| Topic.multi p, t => p.rmatch t.toList

/-- Loop of `_MultiTopic.notify_subscribers`: invoke the given subscribers once
per currently published topic name the pattern fully matches. -/
def multiNotifyLoop (p : RegularExpression Char) (subs : List S) :
    List String → List (S × String)
| [] => []
| n :: rest =>
  (if p.rmatch n.toList then subs.map (fun s => (s, n)) else []) ++ multiNotifyLoop p subs rest

/-- Python `notify_subscribers` of a topic key, returning the invocation events:
a `_SingleTopic` invokes each subscriber once with itself; a `_MultiTopic`
invokes each subscriber once per matching published topic. -/
def Topic.notify_subscribers (t : Topic) (m : Mediator V S) (subs : List S) :
    List (S × String) :=
  match t with
  | Topic.single n => subs.map (fun s => (s, n))
  | Topic.multi p => multiNotifyLoop p subs m.get_all_publisher_topics

/-- Loop of `Mediator._notify_subscribers`: every subscriber list whose key
matches the published topic is notified, keys in insertion order, subscribers
in registration order. -/
def notifyMatching (name : String) : List (Topic × List S) → List (S × String)
| [] => []
| (k, subs) :: rest =>
  (if k.matches name then subs.map (fun s => (s, name)) else []) ++ notifyMatching name rest

/-- Python `Mediator._notify_subscribers(topic)` for an exact topic (observer
diagnostics are modelled separately by `notify_observers`). -/
def Mediator.notify_subscribers_topic (m : Mediator V S) (name : String) :
    List (S × String) :=
  notifyMatching name m.subscribersByTopic

/-- Public `Mediator.notify_subscribers(*topics)` over exact topic names. -/
def Mediator.notify_subscribers (m : Mediator V S) (names : List String) :
    List (S × String) :=
  names.foldr (fun n acc => m.notify_subscribers_topic n ++ acc) []

/-- Python `Mediator._add_publisher`: append to the topic's publisher list, creating
the entry when absent (the observer broadcast is modelled separately). -/
def Mediator.add_publisher (m : Mediator V S) (pub : String → V) (name : String) :
    Mediator V S :=
  ⟨appendEntry (fun a b => a == b) name pub m.publishersByTopic, m.subscribersByTopic⟩

/-- Python `Mediator._add_subscriber`: append to the key's subscriber list, creating
the entry when absent. -/
def Mediator.add_subscriber (m : Mediator V S) (sub : S) (t : Topic) : Mediator V S :=
  ⟨m.publishersByTopic, appendEntry Topic.beq t sub m.subscribersByTopic⟩

/-- Python `Mediator.subscribe(subscriber, *topics)`: for each key in call order,
register the subscriber, then replay (`topic.notify_subscribers(subscriber)`).
Returns the new registry and the replay invocation events. -/
def Mediator.subscribe : Mediator V S → S → List Topic → Mediator V S × List (S × String)
| m, _, [] => (m, [])
| m, sub, t :: ts =>
  let m1 := m.add_subscriber sub t
  let evs := t.notify_subscribers m1 [sub]
  let r := m1.subscribe sub ts
  (r.1, evs ++ r.2)

/-- Python `Mediator.publish(publisher, *topics)`: for each exact topic in call
order, register the publisher, then notify all matching subscribers. -/
def Mediator.publish : Mediator V S → (String → V) → List String → Mediator V S × List (S × String)
| m, _, [] => (m, [])
| m, pub, n :: ns =>
  let m1 := m.add_publisher pub n
  let evs := m1.notify_subscribers_topic n
  let r := m1.publish pub ns
  (r.1, evs ++ r.2)

/-- Python `Mediator._notify_observers(action)`: a plain `for` loop with no exception
handling — an observer that raises stops the loop and the exception escapes.
Returns the observers actually invoked (in order) and the outcome. -/
def notify_observers (action : O → Except E Unit) : List O → List O × Except E Unit
| [] => ([], Except.ok ())
| o :: rest =>
  match action o with
  | Except.error e => ([o], Except.error e)
  | Except.ok _ =>
    let r := notify_observers action rest
    (o :: r.1, r.2)

/-- Python `Mediator._add_publisher` with its observer broadcast: the registry is
mutated first, then the observers are notified, so the mutation stands
whatever the broadcast's outcome. -/
def add_publisher_observed (m : Mediator V S) (observers : List O)
    (action : O → Except E Unit) (pub : String → V) (name : String) :
    Mediator V S × (List O × Except E Unit) :=
  (m.add_publisher pub name, notify_observers action observers)

/-- The state of a `_StaticValue` (a settable scalar) or a `_DynamicValue`
(its ordered list of subscribed topic keys; no cached value exists). -/
inductive VKind where
| static (value : Int)
| dynamic (subscribedTopics : List Topic)

/-- Per-value record: its own topic name (`_Value._topic`), the topics it has
published itself to (`_Value._published_topics`, all exact), and its kind. -/
structure ValRec where
  topicName : String
  publishedTopics : List String
  kind : VKind

/-- Combined state of a mediator and the values registered with it. Publishers
carry the owning value's identifier (`lambda topic: self`), and subscriber
callbacks are identified by the owning value's identifier as well. -/
structure VState where
  med : Mediator Nat Nat
  store : List (Nat × ValRec)

/-- Replace the record stored for a value identifier. -/
def setStoreEntry (vid : Nat) (r : ValRec) : List (Nat × ValRec) → List (Nat × ValRec)
| [] => [(vid, r)]
| (k, x) :: rest => if k == vid then (k, r) :: rest else (k, x) :: setStoreEntry vid r rest

/-- Look up a value's record by identifier. -/
def VState.lookupVal (st : VState) (vid : Nat) : Option ValRec :=
  lookupBy (fun a b => a == b) vid st.store

/-- Python `_Value.publish(*topics)`: extend `_published_topics`, then publish
`lambda topic: self` to the mediator under every given exact topic. -/
def VState.value_publish (st : VState) (vid : Nat) (names : List String) :
    VState × List (Nat × String) :=
  match st.lookupVal vid with
  | none => (st, [])
  | some r =>
    let store1 := setStoreEntry vid ⟨r.topicName, r.publishedTopics ++ names, r.kind⟩ st.store
    let rp := Mediator.publish st.med (fun _ => vid) names
    (⟨rp.1, store1⟩, rp.2)

/-- Python `Mediator.new_static_value(name, value)`: create the value, then publish
it under its own topic. -/
def VState.new_static_value (st : VState) (vid : Nat) (name : String) (v : Int) :
    VState × List (Nat × String) :=
  let st1 : VState := ⟨st.med, st.store ++ [(vid, ⟨name, [], VKind.static v⟩)]⟩
  st1.value_publish vid [name]

/-- Python `Mediator.new_dynamic_value(name)`: create the value, then publish it
under its own topic. -/
def VState.new_dynamic_value (st : VState) (vid : Nat) (name : String) :
    VState × List (Nat × String) :=
  let st1 : VState := ⟨st.med, st.store ++ [(vid, ⟨name, [], VKind.dynamic []⟩)]⟩
  st1.value_publish vid [name]

/-- Python `_DynamicValue.subscribe(*topics)`: extend `_subscribed_topics`, then
subscribe the value's change callback with the mediator (the replay events are
returned). -/
def VState.value_subscribe (st : VState) (vid : Nat) (ts : List Topic) :
    VState × List (Nat × String) :=
  match st.lookupVal vid with
  | none => (st, [])
  | some r =>
    match r.kind with
    | VKind.dynamic subs =>
      let store1 := setStoreEntry vid ⟨r.topicName, r.publishedTopics, VKind.dynamic (subs ++ ts)⟩ st.store
      let rs := Mediator.subscribe st.med vid ts
      (⟨rs.1, store1⟩, rs.2)
    | VKind.static _ => (st, [])

/-- Python `_StaticValue.set_value(value)`: assign, then
`mediator.notify_subscribers(*self._published_topics)` — unconditionally,
with no comparison against the previous value. -/
def VState.set_value (st : VState) (vid : Nat) (v : Int) :
    VState × List (Nat × String) :=
  match st.lookupVal vid with
  | none => (st, [])
  | some r =>
    match r.kind with
    | VKind.static _ =>
      let st1 : VState := ⟨st.med, setStoreEntry vid ⟨r.topicName, r.publishedTopics, VKind.static v⟩ st.store⟩
      (st1, st1.med.notify_subscribers r.publishedTopics)
    | VKind.dynamic _ => (st, [])

/-- Python `get_value()`: a `_StaticValue` returns its scalar; a `_DynamicValue`
recomputes `reduce(add, [v.get_value() for v in get_published_data(...)], 0)`
live on every call (no cache). The fuel bounds the recursion depth of the
Python call stack (the source recurses unboundedly on a dependency cycle). -/
def VState.get_value (st : VState) : Nat → Nat → Int
| 0, _ => 0
| Nat.succ fuel, vid =>
  match st.lookupVal vid with
  | none => 0
  | some r =>
    match r.kind with
    | VKind.static v => v
    | VKind.dynamic ts =>
      (((st.med.get_published_data ts).1).map (fun w => st.get_value fuel w)).foldl (· + ·) 0

namespace ValueLib

/-- Python `value.py`'s `Value`: a named observable with an ordered observer list;
observers are identified abstractly and an invocation event records the
observer and the value it was called with. -/
structure Value where
  name : String
  observers : List Nat

/-- Python `Value._notify_observers()`: invoke every registered observer once with
the value itself, in registration order. -/
def Value.notify_observers (v : Value) : List (Nat × Value) :=
  v.observers.map (fun o => (o, v))

/-- Python `Value.add_observer(observer)`: append, then immediately invoke the new
observer once with the value itself (which by then contains the observer). -/
def Value.add_observer (v : Value) (o : Nat) : Value × List (Nat × Value) :=
  let v1 : Value := ⟨v.name, v.observers ++ [o]⟩
  (v1, [(o, v1)])

/-- Python `value.py`'s `FixedValue`: a `Value` holding a settable scalar. -/
structure FixedValue where
  base : Value
  value : Int

/-- Python `FixedValue.set_value(value)`: assign, then notify all observers,
unconditionally. -/
def FixedValue.set_value (f : FixedValue) (v : Int) : FixedValue × List (Nat × Value) :=
  (⟨f.base, v⟩, f.base.notify_observers)

end ValueLib

/-- The ASCII digit character class, `\d` as used by the demo patterns. -/
def digitRE : RegularExpression Char :=
  RegularExpression.char '0' + RegularExpression.char '1' + RegularExpression.char '2' +
  RegularExpression.char '3' + RegularExpression.char '4' + RegularExpression.char '5' +
  RegularExpression.char '6' + RegularExpression.char '7' + RegularExpression.char '8' +
  RegularExpression.char '9'

/-- The pattern `a\d`. -/
def patAd : RegularExpression Char := RegularExpression.char 'a' * digitRE

/-- The literal pattern `a1`. -/
def patA1 : RegularExpression Char := RegularExpression.char 'a' * RegularExpression.char '1'

/-- The current publisher list of an exact topic (the non-mutating read used
by queries). -/
def Mediator.publishersOf (m : Mediator V S) (n : String) : List (String → V) :=
  (m.get_publishers_for_topic n false).1

/-- Modelled from the spec: the set of exact topics a key denotes — itself for
an exact key, every currently-registered published topic name satisfying the
pattern for a pattern key. -/
def resolveKey (m : Mediator V S) : Topic → List String
| Topic.single n => [n]
| Topic.multi p => m.get_all_publisher_topics.filter (fun t => p.rmatch t.toList)

/-- Modelled from the spec: the concatenation, in key order then
publisher-registration order, of every publisher's current value for each
resolved topic. -/
def specPublishedData (m : Mediator V S) (ks : List Topic) : List V :=
  ks.flatMap (fun k => (resolveKey m k).flatMap (fun n => (m.publishersOf n).map (fun p => p n)))

/-- Registry with values `"v1","v2","v3"` published under `"a1","a2","b1"`. -/
def medC3 : Mediator String Nat :=
  ⟨[("a1", [fun _ => "v1"]), ("a2", [fun _ => "v2"]), ("b1", [fun _ => "v3"])], []⟩

/-- Registry with one publisher under `"a1"` and subscriber `3` registered
under both the exact key `"a1"` and the pattern key `a\d`. -/
def medC6 : Mediator Nat Nat :=
  ⟨[("a1", [fun _ => 5])], [(Topic.single "a1", [3]), (Topic.multi patAd, [3])]⟩

/-- Leaf values `l1 = 10` (id 0) and `l2 = 2` (id 1), both subscribed to by
the aggregate `agg` (id 2). -/
def aggState : VState :=
  let vs1 := ((⟨⟨[], []⟩, []⟩ : VState).new_static_value 0 "l1" 10).1
  let vs2 := (vs1.new_static_value 1 "l2" 2).1
  let vs3 := (vs2.new_dynamic_value 2 "agg").1
  let vs4 := (vs3.value_subscribe 2 [Topic.single "l1"]).1
  (vs4.value_subscribe 2 [Topic.single "l2"]).1

/-- An observer callback that raises on observer `0` and succeeds elsewhere. -/
def obsAction : Nat → Except Unit Unit :=
  fun o => if o = 0 then Except.error () else Except.ok ()

/-- Looking up a key right after `setdefault`-appending to it yields the old
list (empty when the entry was absent) extended with the new element. -/
theorem lookupBy_beq_appendEntry [BEq α] [LawfulBEq α] (k : α) (v : γ) (l : List (α × List γ)) :
    lookupBy (fun a b => a == b) k (appendEntry (fun a b => a == b) k v l) =
      some (((lookupBy (fun a b => a == b) k l).getD []) ++ [v]) := by
  induction l with
  | nil => simp [appendEntry, lookupBy]
  | cons hd tl ih =>
    obtain ⟨a, xs⟩ := hd
    cases hab : a == k
    · simp [appendEntry, lookupBy, hab, ih]
    · simp [appendEntry, lookupBy, hab]

/-- The non-creating publisher lookup returns the registry untouched. -/
theorem get_publishers_false_state (m : Mediator V S) (n : String) :
    (m.get_publishers_for_topic n false).2 = m := rfl

/-- Exact-topic data extraction: one value per registered publisher, and the
registry is returned unchanged. -/
theorem gpd_for_topic_eq (m : Mediator V S) (n : String) :
    m.get_published_data_for_topic n = ((m.publishersOf n).map (fun p => p n), m) := rfl

/-- The pattern-query loop equals a filter of the published topic names
followed by per-topic extraction, with the registry unchanged. -/
theorem multiDataLoop_eq (p : RegularExpression Char) (names : List String) (m : Mediator V S) :
    multiDataLoop p names m =
      ((names.filter (fun n => p.rmatch n.toList)).flatMap
        (fun n => (m.publishersOf n).map (fun q => q n)), m) := by
  induction names with
  | nil => simp [multiDataLoop]
  | cons n rest ih =>
    cases h : p.rmatch n.toList
    · simp only [multiDataLoop, List.filter_cons, h]
      simp [ih]
    · simp only [multiDataLoop, List.filter_cons, h, gpd_for_topic_eq]
      simp [ih]

/-- A single key's query equals resolution (per the spec's wording) followed
by per-topic extraction, with the registry unchanged. -/
theorem topic_gpd_eq (t : Topic) (m : Mediator V S) :
    t.get_published_data m =
      ((resolveKey m t).flatMap (fun n => (m.publishersOf n).map (fun p => p n)), m) := by
  cases t with
  | single n => simp [Topic.get_published_data, resolveKey, gpd_for_topic_eq]
  | multi p => simp [Topic.get_published_data, resolveKey, multiDataLoop_eq]

/-- The implementation's query refines the spec-worded one and never mutates
the registry. -/
theorem gpd_eq_spec (m : Mediator V S) (ks : List Topic) :
    Mediator.get_published_data m ks = (specPublishedData m ks, m) := by
  induction ks with
  | nil => simp [Mediator.get_published_data, specPublishedData]
  | cons t ts ih =>
    simp [Mediator.get_published_data, topic_gpd_eq, ih, specPublishedData]

/-- Binding a singleton-producing function is mapping it. -/
theorem flatMap_single (l : List α) (f : α → β) :
    l.flatMap (fun a => [f a]) = l.map f := by
  induction l with
  | nil => rfl
  | cons a rest ih => simp [ih]

/-- The pattern-notification loop equals a filter of the published topic names
followed by one invocation per subscriber per matching topic. -/
theorem multiNotifyLoop_eq (p : RegularExpression Char) (subs : List S) (names : List String) :
    multiNotifyLoop p subs names =
      (names.filter (fun n => p.rmatch n.toList)).flatMap (fun n => subs.map (fun s => (s, n))) := by
  induction names with
  | nil => rfl
  | cons n rest ih =>
    cases h : p.rmatch n.toList
    · simp only [multiNotifyLoop, List.filter_cons, h]
      simp [ih]
    · simp only [multiNotifyLoop, List.filter_cons, h]
      simp [ih]

/-- Looking a value up after replacing its record gives the new record. -/
theorem lookupBy_setStoreEntry (vid : Nat) (r : ValRec) (l : List (Nat × ValRec)) :
    lookupBy (fun a b => a == b) vid (setStoreEntry vid r l) = some r := by
  induction l with
  | nil => simp [setStoreEntry, lookupBy]
  | cons hd tl ih =>
    obtain ⟨k, x⟩ := hd
    cases hk : k == vid
    · simp [setStoreEntry, lookupBy, hk, ih]
    · simp [setStoreEntry, lookupBy, hk]

/-- Claim C1, counterexample: on a fresh mediator (no published topic at all,
so no currently-published exact topic matches the key), subscribing with the
exact key `"t"` invokes the subscriber once — not zero times. -/
theorem subscribe_exact_replay_cex :
    Mediator.get_all_publisher_topics (⟨[], []⟩ : Mediator Nat Nat) = [] ∧
    ((⟨[], []⟩ : Mediator Nat Nat).subscribe 7 [Topic.single "t"]).2 = [(7, "t")] ∧
    ((⟨[], []⟩ : Mediator Nat Nat).subscribe 7 [Topic.single "t"]).2 ≠ [] :=
  ⟨rfl, rfl, by decide⟩

/-- Claim C1, amended: replay on subscribe invokes the subscriber exactly once
with the topic itself for an exact key — regardless of registered publishers —
and once per currently-published exact topic matching the pattern for a
pattern key (zero times if none match). -/
theorem subscribe_replay_amended (m : Mediator V S) (sub : S) (n : String)
    (p : RegularExpression Char) :
    (Mediator.subscribe m sub [Topic.single n]).2 = [(sub, n)] ∧
    (Mediator.subscribe m sub [Topic.multi p]).2 =
      (m.get_all_publisher_topics.filter (fun t => p.rmatch t.toList)).map (fun t => (sub, t)) := by
  constructor
  · simp [Mediator.subscribe, Topic.notify_subscribers]
  · simp [Mediator.subscribe, Topic.notify_subscribers, multiNotifyLoop_eq,
      Mediator.add_subscriber, Mediator.get_all_publisher_topics, flatMap_single]

/-- Claim C2, counterexample: with observers `[0, 1]` and observer `0`
raising, the broadcast loop propagates the exception (outcome is an error,
not success) and observer `1` is never invoked — faults are not isolated. -/
theorem observer_exception_cex :
    (notify_observers obsAction [0, 1]).2 = Except.error () ∧
    (notify_observers obsAction [0, 1]).1 = [0] :=
  ⟨rfl, rfl⟩

/-- Claim C2, amended: an exception raised by an observer's callback
propagates to the caller and aborts notification of the remaining observers
(exactly the earlier observers plus the failing one were invoked); the
registry mutation preceding the broadcast is already applied and stands
whatever the broadcast's outcome. -/
theorem observer_exception_propagates (pre post : List O) (o : O)
    (action : O → Except E Unit) (e : E) (m : Mediator V S) (observers : List O)
    (pub : String → V) (n : String)
    (hpre : ∀ x ∈ pre, action x = Except.ok ()) (ho : action o = Except.error e) :
    notify_observers action (pre ++ o :: post) = (pre ++ [o], Except.error e) ∧
    (add_publisher_observed m observers action pub n).1 = m.add_publisher pub n := by
  constructor
  · induction pre with
    | nil => simp [notify_observers, ho]
    | cons x xs ih =>
      have hx : action x = Except.ok () := hpre x (List.mem_cons_self x xs)
      have ihh := ih (fun y hy => hpre y (List.mem_cons_of_mem x hy))
      simp [notify_observers, hx, ihh]
  · rfl

/-- Witness for C2's amended theorem at a concrete failing broadcast. -/
theorem observer_exception_propagates_witness :
    notify_observers obsAction ([1] ++ 0 :: [2]) = ([1] ++ [0], Except.error ()) ∧
    (add_publisher_observed (⟨[], []⟩ : Mediator Nat Nat) [1, 0, 2] obsAction
      (fun _ => 0) "t").1 = (⟨[], []⟩ : Mediator Nat Nat).add_publisher (fun _ => 0) "t" :=
  observer_exception_propagates [1] [2] 0 obsAction () (⟨[], []⟩ : Mediator Nat Nat)
    [1, 0, 2] (fun _ => 0) "t"
    (by intro x hx; simp at hx; subst hx; rfl) (by rfl)

/-- Claim C3: `getPublishedData` returns the concatenation, in key order then
publisher-registration order, of each publisher's current value for each
topic the key resolves to; it is a live query (a publisher registered later
is seen by a later call); with `{"a1","a2","b1"}` published and the pattern
`a\d`, the query returns exactly the values for `"a1"` and `"a2"` in
registration order and never `"b1"`. -/
theorem get_published_data_correct :
    (∀ (V S : Type) (m : Mediator V S) (ks : List Topic),
      (Mediator.get_published_data m ks).1 = specPublishedData m ks) ∧
    (∀ (V S : Type) (m : Mediator V S) (pub : String → V) (n : String),
      ((Mediator.publish m pub [n]).1.get_published_data [Topic.single n]).1 =
        (Mediator.get_published_data m [Topic.single n]).1 ++ [pub n]) ∧
    (Mediator.get_published_data medC3 [Topic.multi patAd]).1 = ["v1", "v2"] := by
  refine ⟨fun V S m ks => by rw [gpd_eq_spec], fun V S m pub n => ?_, by rfl⟩
  simp [Mediator.publish, gpd_eq_spec, specPublishedData, resolveKey,
    Mediator.publishersOf, Mediator.get_publishers_for_topic, Mediator.add_publisher,
    lookupBy_beq_appendEntry]

/-- Claim C5: `matches` is string equality for an exact key; for a pattern key
it is full-match semantics — true exactly when the whole name is in the
pattern's language; in particular the pattern `a1` matches `"a1"` but not
`"a10"`. -/
theorem matches_full_match :
    (∀ (n t : String), Topic.matches (Topic.single n) t = (n == t)) ∧
    (∀ (p : RegularExpression Char) (t : String),
      Topic.matches (Topic.multi p) t = true ↔ t.toList ∈ p.matches') ∧
    Topic.matches (Topic.multi patA1) "a10" = false ∧
    Topic.matches (Topic.multi patA1) "a1" = true :=
  ⟨fun _ _ => rfl,
   fun p t => RegularExpression.rmatch_iff_matches' p t.toList,
   by decide, by decide⟩

/-- Claim C6: `getPublishedData` performs no de-duplication — the result of a
multi-key query is the concatenation of the per-key results; with `"a1"`
published once (value `5`) the overlapping query `[exact "a1", pattern a\d]`
returns the value twice; and a subscriber registered under both an exact key
and a matching pattern key is delivered one event twice. -/
theorem no_dedup_overlapping_keys :
    (∀ (V S : Type) (m : Mediator V S) (k : Topic) (ks : List Topic),
      (Mediator.get_published_data m (k :: ks)).1 =
        (Mediator.get_published_data m [k]).1 ++ (Mediator.get_published_data m ks).1) ∧
    (Mediator.get_published_data medC6 [Topic.single "a1", Topic.multi patAd]).1 = [5, 5] ∧
    Mediator.notify_subscribers_topic medC6 "a1" = [(3, "a1"), (3, "a1")] := by
  refine ⟨fun V S m k ks => ?_, by rfl, by rfl⟩
  simp [gpd_eq_spec, specPublishedData]

/-- Claim C9: querying published data never mutates the registry — both
`getPublishedData` and the underlying non-creating publisher lookup return
the registry unchanged; in particular querying an unknown topic on an empty
registry creates no entry. -/
theorem query_does_not_mutate :
    (∀ (V S : Type) (m : Mediator V S) (ks : List Topic),
      (Mediator.get_published_data m ks).2 = m) ∧
    (∀ (V S : Type) (m : Mediator V S) (n : String),
      (m.get_publishers_for_topic n false).2 = m) ∧
    ((⟨[], []⟩ : Mediator Nat Nat).get_published_data
      [Topic.single "missing"]).2.publishersByTopic = [] := by
  refine ⟨fun V S m ks => by rw [gpd_eq_spec], fun V S m n => rfl, by rfl⟩

/-- Claim C4, counterexample: with leaves `10` (id 0) and `2` (id 1) summed by
the aggregate (id 2), the initial value is `12`, but `setValue(-1)` on either
leaf yields `1` or `9` respectively — never the claimed `10`. -/
theorem aggregate_sum_cex :
    VState.get_value aggState 3 2 = 12 ∧
    VState.get_value ((aggState.set_value 0 (-1)).1) 3 2 = 1 ∧
    VState.get_value ((aggState.set_value 1 (-1)).1) 3 2 = 9 ∧
    (1 : Int) ≠ 10 ∧ (9 : Int) ≠ 10 :=
  ⟨by decide, by decide, by decide, by decide, by decide⟩

/-- Claim C4, amended: for leaves `10` and `2` both subscribed to by a sum
aggregate, `currentValue()` is `12`; after `setValue(-1)` on the leaf holding
`2`, `currentValue()` is `9` with no explicit recomputation call. -/
theorem aggregate_sum_amended :
    VState.get_value aggState 3 2 = 12 ∧
    VState.get_value ((aggState.set_value 1 (-1)).1) 3 2 = 9 :=
  ⟨by decide, by decide⟩

/-- Claim C7: a leaf value's `setValue` assigns the new value and then
notifies the subscribers of all its published topics unconditionally — the
notification events do not depend on the new value, and in particular setting
the identical current value emits the same notifications; likewise
`value.py`'s `FixedValue.set_value` assigns and then notifies all observers
unconditionally. -/
theorem set_value_always_notifies (st : VState) (vid : Nat) (v w : Int) (tn : String)
    (pts : List String) (f : ValueLib.FixedValue) (u : Int)
    (h : st.lookupVal vid = some ⟨tn, pts, VKind.static w⟩) :
    ((st.set_value vid v).1).get_value 1 vid = v ∧
    (st.set_value vid v).2 = st.med.notify_subscribers pts ∧
    (st.set_value vid v).2 = (st.set_value vid w).2 ∧
    (ValueLib.FixedValue.set_value f u).1.value = u ∧
    (ValueLib.FixedValue.set_value f u).2 = ValueLib.Value.notify_observers f.base := by
  refine ⟨?_, ?_, ?_, rfl, rfl⟩
  · simp only [VState.set_value, h]
    simp [VState.get_value, VState.lookupVal, lookupBy_setStoreEntry]
  · simp only [VState.set_value, h]
  · simp only [VState.set_value, h]

/-- Witness for C7 at the two-leaf aggregate state, re-setting leaf 0 to its
current value `10`. -/
theorem set_value_always_notifies_witness :
    ((aggState.set_value 0 10).1).get_value 1 0 = 10 ∧
    (aggState.set_value 0 10).2 = aggState.med.notify_subscribers ["l1"] ∧
    (aggState.set_value 0 10).2 = (aggState.set_value 0 10).2 ∧
    (ValueLib.FixedValue.set_value ⟨⟨"x", [4]⟩, 1⟩ 1).1.value = 1 ∧
    (ValueLib.FixedValue.set_value ⟨⟨"x", [4]⟩, 1⟩ 1).2 =
      ValueLib.Value.notify_observers (⟨"x", [4]⟩ : ValueLib.Value) :=
  set_value_always_notifies aggState 0 10 10 "l1" ["l1"] ⟨⟨"x", [4]⟩, 1⟩ 1 (by rfl)

/-- Claim C8: `getPublishedData` on a topic with no registered publishers
returns the empty sequence, and subscribing with a pattern that matches no
currently-published topic succeeds with an empty replay. -/
theorem empty_state_total (m : Mediator V S) (n : String) (p : RegularExpression Char) (s : S)
    (h1 : lookupBy (fun a b => a == b) n m.publishersByTopic = none)
    (h2 : ∀ t ∈ m.get_all_publisher_topics, p.rmatch t.toList = false) :
    (Mediator.get_published_data m [Topic.single n]).1 = [] ∧
    (Mediator.subscribe m s [Topic.multi p]).2 = [] := by
  constructor
  · simp [gpd_eq_spec, specPublishedData, resolveKey, Mediator.publishersOf,
      Mediator.get_publishers_for_topic, h1]
  · have hfil : m.get_all_publisher_topics.filter (fun t => p.rmatch t.toList) = [] := by
      rw [List.filter_eq_nil_iff]
      intro t ht
      rw [h2 t ht]
      exact Bool.false_ne_true
    have hsame : (m.add_subscriber s (Topic.multi p)).get_all_publisher_topics =
        m.get_all_publisher_topics := rfl
    simp only [Mediator.subscribe, Topic.notify_subscribers, multiNotifyLoop_eq, hsame, hfil]
    simp

/-- Witness for C8 at the `{"a1","a2","b1"}` registry, with the unknown topic
`"c1"` and the never-matching pattern `c`. -/
theorem empty_state_total_witness :
    (Mediator.get_published_data medC3 [Topic.single "c1"]).1 = [] ∧
    (Mediator.subscribe medC3 9 [Topic.multi (RegularExpression.char 'c')]).2 = [] :=
  empty_state_total medC3 "c1" (RegularExpression.char 'c') 9 (by rfl)
    (by
      intro t ht
      simp [Mediator.get_all_publisher_topics, medC3] at ht
      rcases ht with rfl | rfl | rfl <;> decide)

/-- Claim C10: in `value.py`, `add_observer` synchronously invokes exactly the
newly added observer, once, with the value itself; and a notification pass
invokes every registered observer once in registration order. -/
theorem add_observer_immediate_notify :
    (∀ (v : ValueLib.Value) (o : Nat),
      (ValueLib.Value.add_observer v o).2 = [(o, (ValueLib.Value.add_observer v o).1)]) ∧
    (∀ (v : ValueLib.Value) (o : Nat), (ValueLib.Value.add_observer v o).2.length = 1) ∧
    (∀ (v : ValueLib.Value), (ValueLib.Value.notify_observers v).map Prod.fst = v.observers) := by
  refine ⟨fun v o => rfl, fun v o => rfl, fun v => ?_⟩
  have hmap : ∀ (l : List Nat) (w : ValueLib.Value),
      (l.map (fun o => (o, w))).map Prod.fst = l := by
    intro l w
    induction l with
    | nil => rfl
    | cons a rest ih => simp [ih]
  exact hmap v.observers v
